import Mathlib

/-!
Verification development for the session connection manager and protocol
dispatcher of the trading dashboard frontend (frontend/app/main.tsx) and the
pagination controls of the trading data view
(frontend/app/components/portfolio/TradingDataView.tsx).

The embedding is a shallow one: the React effect of the App component is
modelled as an explicit event-driven state machine over MState, the message
handler as a pure function from frames and store states to an effect record,
and the pagination controls as a pure step function on the page cursor.
-/

namespace TradeDash

/-- Ready states of a browser WebSocket: CONNECTING, OPEN, CLOSING, CLOSED.
The constructor for the OPEN state is named opened to avoid a keyword. -/
inductive ReadyState
  | connecting
  | opened
  | closing
  | closed
deriving DecidableEq, Repr

/-- CLOSING or CLOSED, the states treated as terminal by the mount check
(main.tsx line 71). -/
def isTerminalState : ReadyState → Bool
  | .closing => true
  | .closed => true
  | _ => false

/-- CONNECTING or OPEN: a physical connection that is in flight or
established. -/
def isLive : ReadyState → Bool
  | .connecting => true
  | .opened => true
  | _ => false

/-- One physical WebSocket object. scope is the index of the effect
invocation whose connectWebSocket call created it and whose handler closures
are attached to it. handlersAttached records whether the open, message,
close and error listeners are attached; the detach closure returned by
connectWebSocket (main.tsx lines 157 to 162) is discarded by every caller,
so nothing in the source ever resets this to false. -/
structure Conn where
  state : ReadyState
  scope : Nat
  handlersAttached : Bool
deriving DecidableEq, Repr

/-- A pending setTimeout callback that will invoke connectWebSocket.
tid is the timer handle, scope the effect invocation whose reconnectTimer
variable received the handle, delayMs the scheduled delay. -/
structure PTimer where
  tid : Nat
  scope : Nat
  delayMs : Nat
deriving DecidableEq, Repr

/-- Backoff delay used by handleClose for an abnormal closure
(main.tsx line 143). -/
def closeReconnectDelayMs : Nat := 3000

/-- Retry delay used by the catch branch of connectWebSocket when
constructing the WebSocket throws (main.tsx line 165). -/
def connectErrorRetryDelayMs : Nat := 5000

/-- Global state of the module and of the App component effect.
conns lists every WebSocket ever constructed, indexed by creation order.
singleton models the module level variable holding the current WebSocket.
wsRef models wsRef.current. effectWs and tvar model, per effect scope, the
local ws and reconnectTimer variables of that invocation of the effect body.
pending lists the scheduled, not yet fired, not yet cancelled timers.
mounted says whether the component effect is currently active, scopes counts
how many times the effect body has run. -/
structure MState where
  conns : List Conn
  singleton : Option Nat
  wsRef : Option Nat
  effectWs : List (Option Nat)
  tvar : List (Option Nat)
  pending : List PTimer
  nextTid : Nat
  mounted : Bool
  scopes : Nat
deriving DecidableEq, Repr

/-- The empty initial state: no connection, no timer, component not
mounted. -/
def initState : MState :=
  { conns := [], singleton := none, wsRef := none, effectWs := [], tvar := [],
    pending := [], nextTid := 0, mounted := false, scopes := 0 }

/-- connectWebSocket (main.tsx lines 73 to 167) run in scope s.
On success a new WebSocket in the CONNECTING state is constructed, the
module singleton, wsRef.current and the scope local ws variable all point at
it, and its four listeners are attached. If construction throws, the catch
branch schedules a retry timer with the 5000 ms delay into the scope local
reconnectTimer variable; nothing else changes. -/
def connectWS (throwsEx : Bool) (s : Nat) (σ : MState) : MState :=
  if throwsEx then
    { σ with pending := σ.pending ++ [⟨σ.nextTid, s, connectErrorRetryDelayMs⟩],
             tvar := σ.tvar.set s (some σ.nextTid),
             nextTid := σ.nextTid + 1 }
  else
    let cid := σ.conns.length
    { σ with conns := σ.conns ++ [⟨.connecting, s, true⟩],
             singleton := some cid,
             wsRef := some cid,
             effectWs := σ.effectWs.set s (some cid) }

/-- The effect body (main.tsx lines 68 to 173): read the singleton into a
fresh local ws variable, initialise a fresh reconnectTimer variable to null,
and either reuse the existing connection when it is neither null nor in a
terminal state, or call connectWebSocket. -/
def mountStep (throwsEx : Bool) (σ : MState) : MState :=
  if σ.mounted then σ
  else
    let s := σ.scopes
    let ws0 := σ.singleton
    let σ1 := { σ with mounted := true, scopes := s + 1,
                       effectWs := σ.effectWs ++ [ws0],
                       tvar := σ.tvar ++ [none] }
    let created := match ws0 with
      | none => true
      | some c => match σ.conns[c]? with
        | none => true
        | some k => isTerminalState k.state
    if created then connectWS throwsEx s σ1 else { σ1 with wsRef := ws0 }

/-- The effect cleanup (main.tsx lines 175 to 179): clearTimeout on the
current scope reconnectTimer variable when it holds a handle. Nothing else
is touched: the connection is not closed and no listener is detached. -/
def unmountStep (σ : MState) : MState :=
  if σ.mounted then
    match σ.tvar.getD (σ.scopes - 1) none with
    | some tid =>
        { σ with pending := σ.pending.filter (fun t => t.tid != tid),
                 mounted := false }
    | none => { σ with mounted := false }
  else σ

/-- Delivery of the open event to connection c (handleOpen, main.tsx lines
81 to 87). The bootstrap send performed there is modelled in the dispatcher
part; here only the ready state changes. -/
def openStep (c : Nat) (σ : MState) : MState :=
  match σ.conns[c]? with
  | none => σ
  | some k =>
      if k.state = .connecting ∧ k.handlersAttached = true then
        { σ with conns := σ.conns.set c { k with state := .opened } }
      else σ

/-- Delivery of the close event with code to connection c (handleClose,
main.tsx lines 131 to 145). The singleton is nulled, wsRef.current is
nulled when it equals the creating scope current ws variable, and when the
code is neither 1000 nor 1001 a reconnect timer with the 3000 ms delay is
stored into the creating scope reconnectTimer variable. -/
def closeStep (c code : Nat) (σ : MState) : MState :=
  match σ.conns[c]? with
  | none => σ
  | some k =>
      if isTerminalState k.state = true ∨ k.handlersAttached = false then σ
      else
        { conns := σ.conns.set c { k with state := .closed },
          singleton := none,
          wsRef := if σ.wsRef = σ.effectWs.getD k.scope none then none
                   else σ.wsRef,
          effectWs := σ.effectWs,
          tvar := if code ≠ 1000 ∧ code ≠ 1001 then
                    σ.tvar.set k.scope (some σ.nextTid)
                  else σ.tvar,
          pending := if code ≠ 1000 ∧ code ≠ 1001 then
                       σ.pending ++ [⟨σ.nextTid, k.scope, closeReconnectDelayMs⟩]
                     else σ.pending,
          nextTid := if code ≠ 1000 ∧ code ≠ 1001 then σ.nextTid + 1
                     else σ.nextTid,
          mounted := σ.mounted,
          scopes := σ.scopes }

/-- Firing of the pending timer with handle tid: the callback is
connectWebSocket of the owning scope (main.tsx lines 140 to 143 and 165). -/
def fireStep (tid : Nat) (throwsEx : Bool) (σ : MState) : MState :=
  match σ.pending.find? (fun t => t.tid == tid) with
  | none => σ
  | some t =>
      connectWS throwsEx t.scope
        { σ with pending := σ.pending.filter (fun u => u.tid != tid) }

/-- Events driving the machine. The throwsEx flags are environment oracles
saying whether the WebSocket constructor throws during that attempt. -/
inductive Ev
  | mount (throwsEx : Bool)
  | unmount
  | transportOpen (c : Nat)
  | transportClose (c : Nat) (code : Nat)
  | transportError (c : Nat)
  | timerFire (tid : Nat) (throwsEx : Bool)
deriving DecidableEq, Repr

/-- One step of the machine. handleError (main.tsx lines 147 to 150) only
logs, so transportError leaves the state unchanged. -/
def step (σ : MState) (e : Ev) : MState :=
  match e with
  | .mount b => mountStep b σ
  | .unmount => unmountStep σ
  | .transportOpen c => openStep c σ
  | .transportClose c code => closeStep c code σ
  | .transportError _ => σ
  | .timerFire tid b => fireStep tid b σ

/-- Run a list of events from a state. -/
def run (σ : MState) (evs : List Ev) : MState :=
  evs.foldl step σ

/-- Number of connections currently in flight or established. -/
def liveCount (σ : MState) : Nat :=
  σ.conns.countP (fun k => isLive k.state)

/-- Whether an event is a mount of the component effect. -/
def isMount : Ev → Bool
  | .mount _ => true
  | _ => false

/-- The User record of main.tsx lines 29 to 32. -/
structure UserRec where
  id : Nat
  username : String
deriving DecidableEq, Repr

/-- The Account record of main.tsx lines 34 to 42. Monetary amounts are
carried opaquely as integers; no claim computes with them. -/
structure AccountRec where
  id : Nat
  user_id : Nat
  name : String
  account_type : String
  initial_capital : Int
  current_cash : Int
  frozen_cash : Int
deriving DecidableEq, Repr

/-- The optional portfolio sub-object of the Overview record. -/
structure PortfolioRec where
  total_assets : Int
  positions_value : Int
deriving DecidableEq, Repr

/-- The Overview record of main.tsx lines 44 to 52. -/
structure OverviewRec where
  account : AccountRec
  total_assets : Int
  positions_value : Int
  portfolio : Option PortfolioRec
deriving DecidableEq, Repr

/-- A successfully parsed inbound frame: a type discriminator string plus
the fields the handler may consult, each possibly absent. -/
structure RawMsg where
  type : String
  user : Option UserRec
  account : Option AccountRec
  overview : Option OverviewRec
  message : Option String
deriving DecidableEq, Repr

/-- An inbound frame as seen by handleMessage: either text that JSON.parse
rejects, or a parsed object. -/
inductive Frame
  | unparseable
  | ok (msg : RawMsg)
deriving DecidableEq, Repr

/-- Outbound protocol messages built by the frontend. -/
inductive OutMsg
  | bootstrap (username : String) (initial_capital : Int)
  | get_snapshot
  | switch_user (username : String)
deriving DecidableEq, Repr

/-- User facing notifications: toast.success, toast.error and plain
toast calls. -/
inductive Toast
  | success (text : String)
  | error (text : String)
  | plain (text : String)
deriving DecidableEq, Repr

/-- The session state store: the three useState cells of the App component
(main.tsx lines 62 to 64). -/
structure Store where
  user : Option UserRec
  account : Option AccountRec
  overview : Option OverviewRec
deriving DecidableEq, Repr

/-- Result of one handleMessage invocation: the store afterwards, the
messages sent on the socket, the toasts emitted, and whether the
surrounding catch block (main.tsx lines 126 to 128) swallowed a thrown
error. -/
structure HandlerOut where
  store : Store
  sent : List OutMsg
  toasts : List Toast
  caught : Bool
deriving DecidableEq, Repr

/-- handleMessage (main.tsx lines 89 to 129). A frame that JSON.parse
rejects reaches the catch block with no effects. A parsed frame is
dispatched on its type string exactly as the if chain of the source does.
In the user_switched and account_switched branches the toast text reads
msg.user.username respectively msg.account.name before any store update, so
an absent field throws there and the catch block ends the branch with no
effects. The error branch applies the JavaScript truthiness fallback of
msg.message, under which an empty string also falls back. -/
def handleMessage (f : Frame) (st : Store) : HandlerOut :=
  match f with
  | .unparseable => ⟨st, [], [], true⟩
  | .ok msg =>
      if msg.type = "bootstrap_ok" then
        let st1 := match msg.user with
          | some u => { st with user := some u }
          | none => st
        let st2 := match msg.account with
          | some a => { st1 with account := some a }
          | none => st1
        ⟨st2, [.get_snapshot], [], false⟩
      else if msg.type = "snapshot" then
        ⟨{ st with overview := msg.overview }, [], [], false⟩
      else if msg.type = "order_filled" then
        ⟨st, [.get_snapshot], [.success "Order filled"], false⟩
      else if msg.type = "order_pending" then
        ⟨st, [.get_snapshot], [.plain "Order placed, waiting for fill"], false⟩
      else if msg.type = "user_switched" then
        match msg.user with
        | none => ⟨st, [], [], true⟩
        | some u =>
            ⟨{ st with user := some u }, [],
             [.success ("Switched to " ++ u.username)], false⟩
      else if msg.type = "account_switched" then
        match msg.account with
        | none => ⟨st, [], [], true⟩
        | some a =>
            ⟨{ st with account := some a }, [],
             [.success ("Switched to " ++ a.name)], false⟩
      else if msg.type = "error" then
        let m := match msg.message with
          | some s => if s = "" then "Order error" else s
          | none => "Order error"
        ⟨st, [], [.error m], false⟩
      else ⟨st, [], [], false⟩

/-- handleMessage lifted to the full application state. The handler body
(main.tsx lines 89 to 129) calls no transport primitive other than send and
never mutates the connection, the singleton, wsRef or any timer, so the
machine component passes through unchanged. -/
def appHandleMessage (σ : MState) (f : Frame) (st : Store) :
    MState × HandlerOut :=
  (σ, handleMessage f st)

/-- Result of one outbound send helper: messages sent, toasts emitted, and
whether an exception escaped to the caller. -/
structure SendOut where
  sent : List OutMsg
  toasts : List Toast
  threw : Bool
deriving DecidableEq, Repr

/-- switchUser (main.tsx lines 182 to 195). ws is the ready state of
wsRef.current when that reference is non null. When the reference is null
or not OPEN, a Not connected toast is emitted and the intent is dropped.
Otherwise the send runs inside a try block whose catch emits a failure
toast; the sendThrows oracle says whether the send throws. Nothing ever
propagates to the caller. -/
def switchUser (ws : Option ReadyState) (uname : String)
    (sendThrows : Bool) : SendOut :=
  match ws with
  | none => ⟨[], [.error "Not connected to server"], false⟩
  | some rs =>
      if rs ≠ .opened then ⟨[], [.error "Not connected to server"], false⟩
      else if sendThrows then ⟨[], [.error "Failed to switch user"], false⟩
      else ⟨[.switch_user uname], [.plain "Switching account..."], false⟩

/-- handleAccountUpdated (main.tsx lines 197 to 201). Sends get_snapshot
only when wsRef.current exists and is OPEN; otherwise it returns with no
send, no toast and no throw. -/
def handleAccountUpdated (ws : Option ReadyState) : SendOut :=
  match ws with
  | some rs => if rs = .opened then ⟨[.get_snapshot], [], false⟩
               else ⟨[], [], false⟩
  | none => ⟨[], [], false⟩

/-- The four pagination buttons of PaginationControls
(TradingDataView.tsx lines 483 to 539). -/
inductive PClick
  | first
  | prevPage
  | nextPage
  | lastPage
deriving DecidableEq, Repr

/-- The disabled attribute of each button: page equal to 1 or loading for
the first and previous buttons, page at least totalPages or loading for the
next and last buttons. -/
def clickDisabled (c : PClick) (page totalPages : Nat) (loading : Bool) :
    Bool :=
  match c with
  | .first => page == 1 || loading
  | .prevPage => page == 1 || loading
  | .nextPage => decide (totalPages ≤ page) || loading
  | .lastPage => decide (totalPages ≤ page) || loading

/-- The page each button requests through onPageChange. -/
def clickTarget (c : PClick) (page totalPages : Nat) : Nat :=
  match c with
  | .first => 1
  | .prevPage => page - 1
  | .nextPage => page + 1
  | .lastPage => totalPages

/-- Effect of one click: a disabled button does nothing, an enabled one
moves the page cursor to its target. -/
def clickStep (totalPages : Nat) (loading : Bool) (page : Nat)
    (c : PClick) : Nat :=
  if clickDisabled c page totalPages loading then page
  else clickTarget c page totalPages

/-- Effect of a sequence of clicks with a fixed totalPages and loading
flag. -/
def runClicks (totalPages : Nat) (loading : Bool) (page : Nat)
    (cs : List PClick) : Nat :=
  cs.foldl (clickStep totalPages loading) page

/-- Sample account used by concrete instances. -/
def sampleAccount : AccountRec :=
  ⟨7, 1, "default", "paper", 10000, 10000, 0⟩

/-- Sample overview used by concrete instances. -/
def sampleOverview : OverviewRec :=
  ⟨sampleAccount, 10000, 0, none⟩

/-- Sample fully populated store used by concrete instances. -/
def sampleStore : Store :=
  ⟨some ⟨1, "default"⟩, some sampleAccount, some sampleOverview⟩

/-- The event trace of a development mode remount race: the effect runs,
is cleaned up and runs again reusing the connection, the connection then
closes abnormally so the first scope handler schedules its reconnect timer,
the component remounts once more creating a fresh connection, and finally
the stale timer of the dead first scope fires and creates yet another
connection. -/
def remountRaceTrace : List Ev :=
  [.mount false, .unmount, .mount false, .transportClose 0 1006,
   .unmount, .mount false, .timerFire 0 false]

/-- Resource budget respected by the machine outside of remounts: the
number of live connections plus the number of pending reconnect timers
never exceeds one. -/
def inv1 (σ : MState) : Prop :=
  liveCount σ + σ.pending.length ≤ 1

/-- A parsed frame whose type string matches no branch of the handler. -/
def mysteryMsg : RawMsg :=
  ⟨"mystery_future_type", none, none, none, none⟩

/-- State reached by a single successful mount from the initial state. -/
def afterMount : MState :=
  run initState [.mount false]

/-- State reached when the very first connection attempt throws. -/
def afterMountThrow : MState :=
  run initState [.mount true]

/-- State reached by a mount followed by the open event. -/
def afterOpen : MState :=
  run initState [.mount false, .transportOpen 0]

/-- A ready state is live exactly when it is not terminal. -/
theorem isLive_of_not_terminal {s : ReadyState}
    (h : isTerminalState s = false) : isLive s = true := by
  cases s <;> simp [isTerminalState, isLive] at *

/-- Timers with handles strictly below a bound are not found when searching
for the bound. -/
theorem find?_tid_fresh (l : List PTimer) (n : Nat)
    (h : ∀ t ∈ l, t.tid < n) : l.find? (fun t => t.tid == n) = none := by
  rw [List.find?_eq_none]
  intro t ht
  simp only [beq_iff_eq]
  exact Nat.ne_of_lt (h t ht)

/-- Timers with handles strictly below a bound all survive a clearTimeout
of the bound. -/
theorem filter_tid_fresh (l : List PTimer) (n : Nat)
    (h : ∀ t ∈ l, t.tid < n) : l.filter (fun t => t.tid != n) = l := by
  apply List.filter_eq_self.mpr
  intro t ht
  simp only [bne_iff_ne, ne_eq]
  exact Nat.ne_of_lt (h t ht)

/-- Claim C1: for every transport close event, a close code other than 1000
and 1001 schedules exactly one reconnect timer, carrying the configured
3000 ms backoff delay, and that timer fires at most once, its firing
performing exactly one new connection attempt and consuming the timer; a
close code of 1000 or 1001 schedules nothing. -/
theorem C1_close_reconnect (σ : MState) (c code : Nat) (k : Conn)
    (hk : σ.conns[c]? = some k) (hh : k.handlersAttached = true)
    (hl : isTerminalState k.state = false)
    (hfresh : ∀ t ∈ σ.pending, t.tid < σ.nextTid) :
    ((code ≠ 1000 ∧ code ≠ 1001) →
      (closeStep c code σ).pending
          = σ.pending ++ [⟨σ.nextTid, k.scope, closeReconnectDelayMs⟩]
        ∧ 0 < closeReconnectDelayMs
        ∧ (fireStep σ.nextTid false (closeStep c code σ)).conns.length
            = σ.conns.length + 1
        ∧ (fireStep σ.nextTid false (closeStep c code σ)).pending
            = σ.pending)
    ∧ ((code = 1000 ∨ code = 1001) →
        (closeStep c code σ).pending = σ.pending) := by
  have hcond : ¬ (isTerminalState k.state = true ∨ k.handlersAttached = false) := by
    simp [hl, hh]
  have hbody : closeStep c code σ
      = { conns := σ.conns.set c { k with state := .closed },
          singleton := none,
          wsRef := if σ.wsRef = σ.effectWs.getD k.scope none then none
                   else σ.wsRef,
          effectWs := σ.effectWs,
          tvar := if code ≠ 1000 ∧ code ≠ 1001 then
                    σ.tvar.set k.scope (some σ.nextTid)
                  else σ.tvar,
          pending := if code ≠ 1000 ∧ code ≠ 1001 then
                       σ.pending ++ [⟨σ.nextTid, k.scope, closeReconnectDelayMs⟩]
                     else σ.pending,
          nextTid := if code ≠ 1000 ∧ code ≠ 1001 then σ.nextTid + 1
                     else σ.nextTid,
          mounted := σ.mounted,
          scopes := σ.scopes } := by
    unfold closeStep
    rw [hk]
    simp only [if_neg hcond]
  constructor
  · intro habn
    have hpend : (closeStep c code σ).pending
        = σ.pending ++ [⟨σ.nextTid, k.scope, closeReconnectDelayMs⟩] := by
      rw [hbody]
      simp only [if_pos habn]
    have hconns : (closeStep c code σ).conns
        = σ.conns.set c { k with state := .closed } := by
      rw [hbody]
    have hfind : ((closeStep c code σ).pending).find?
        (fun t => t.tid == σ.nextTid)
          = some ⟨σ.nextTid, k.scope, closeReconnectDelayMs⟩ := by
      rw [hpend, List.find?_append, find?_tid_fresh σ.pending σ.nextTid hfresh]
      simp [List.find?]
    have hfire : fireStep σ.nextTid false (closeStep c code σ)
        = connectWS false k.scope
            { closeStep c code σ with
              pending := ((closeStep c code σ).pending).filter
                (fun u => u.tid != σ.nextTid) } := by
      unfold fireStep
      rw [hfind]
    have hfilter : ((closeStep c code σ).pending).filter
        (fun u => u.tid != σ.nextTid) = σ.pending := by
      rw [hpend, List.filter_append, filter_tid_fresh σ.pending σ.nextTid hfresh]
      simp [List.filter]
    refine ⟨hpend, by norm_num [closeReconnectDelayMs], ?_, ?_⟩
    · rw [hfire]
      unfold connectWS
      simp [hconns]
    · rw [hfire]
      unfold connectWS
      simp [hfilter]
  · intro hnorm
    have habn : ¬ (code ≠ 1000 ∧ code ≠ 1001) := by
      rcases hnorm with h | h <;> simp [h]
    rw [hbody]
    simp only [if_neg habn]

/-- Concrete instance of the C1 theorem: closing the freshly created
connection with code 1006 schedules the single 3000 ms timer, whose firing
creates exactly one new connection and leaves no pending timer. -/
theorem C1_witness :
    (closeStep 0 1006 afterMount).pending = [⟨0, 0, closeReconnectDelayMs⟩]
    ∧ 0 < closeReconnectDelayMs
    ∧ (fireStep 0 false (closeStep 0 1006 afterMount)).conns.length = 2
    ∧ (fireStep 0 false (closeStep 0 1006 afterMount)).pending = [] := by
  have h := (C1_close_reconnect afterMount 0 1006 ⟨.connecting, 0, true⟩
      (by decide) rfl rfl (by decide)).1 (by decide)
  exact ⟨h.1, h.2.1, h.2.2.1, h.2.2.2⟩

/-- Claim C3 counterexample: the retry scheduled by the catch branch of
connectWebSocket carries a 5000 ms delay, while the retry scheduled by an
abnormal close carries 3000 ms, so a connect exception is not retried after
the same backoff delay as an abnormal close. -/
theorem C3_cex :
    afterMountThrow.pending.map PTimer.delayMs = [5000]
    ∧ (run initState [Ev.mount false,
        Ev.transportClose 0 1006]).pending.map PTimer.delayMs = [3000]
    ∧ connectErrorRetryDelayMs ≠ closeReconnectDelayMs := by
  refine ⟨by decide, by decide, by decide⟩

/-- Claim C3 as amended: an exception thrown while constructing the
WebSocket is caught by connectWebSocket, creates no connection, and
schedules exactly one retry timer, whose fixed 5000 ms delay differs from
the 3000 ms delay used for abnormal close reconnects. -/
theorem C3_catch_retry (σ : MState) (s : Nat) :
    (connectWS true s σ).conns = σ.conns
    ∧ (connectWS true s σ).pending
        = σ.pending ++ [⟨σ.nextTid, s, connectErrorRetryDelayMs⟩]
    ∧ connectErrorRetryDelayMs = 5000
    ∧ closeReconnectDelayMs = 3000 :=
  ⟨rfl, rfl, rfl, rfl⟩

/-- Claim C6 counterexample: after a mount, the open event and the effect
cleanup, the connection is still in the OPEN state with all listeners
attached, so teardown neither closed it with a normal closure code nor
detached its lifecycle listeners. -/
theorem C6_cex :
    (run initState [Ev.mount false, Ev.transportOpen 0, Ev.unmount]).conns
      = [⟨ReadyState.opened, 0, true⟩] := by
  decide

/-- Claim C6 as amended: teardown of the component cancels the pending
backoff timer held by the current effect scope but does not close the
connection and does not detach any lifecycle listener; the connection list,
including the attachment flags, and the singleton are untouched. -/
theorem C6_teardown (σ : MState) (tid : Nat) (hm : σ.mounted = true)
    (ht : σ.tvar.getD (σ.scopes - 1) none = some tid) :
    (unmountStep σ).conns = σ.conns
    ∧ (unmountStep σ).singleton = σ.singleton
    ∧ (unmountStep σ).pending = σ.pending.filter (fun t => t.tid != tid) := by
  unfold unmountStep
  rw [if_pos hm]
  have ht2 : σ.tvar[σ.scopes - 1]?.getD none = some tid := by
    rw [← List.getD_eq_getElem?_getD]
    exact ht
  simp [ht2]

/-- Concrete instance of the C6 theorem: cleaning up right after a failed
connection attempt removes the pending 5000 ms retry timer while leaving
the connection list and the singleton as they were. -/
theorem C6_teardown_witness :
    (unmountStep afterMountThrow).conns = afterMountThrow.conns
    ∧ (unmountStep afterMountThrow).singleton = afterMountThrow.singleton
    ∧ (unmountStep afterMountThrow).pending
        = afterMountThrow.pending.filter (fun t => t.tid != 0) :=
  C6_teardown afterMountThrow 0 (by decide) (by decide)

/-- The effect cleanup preserves the resource budget. -/
theorem inv1_unmount (σ : MState) (h : inv1 σ) : inv1 (unmountStep σ) := by
  unfold unmountStep
  split
  · split
    · rename_i tid _
      unfold inv1 liveCount at h ⊢
      dsimp only
      have hle := List.length_filter_le (fun t => t.tid != tid) σ.pending
      omega
    · exact h
  · exact h

/-- Delivery of an open event preserves the resource budget. -/
theorem inv1_open (c : Nat) (σ : MState) (h : inv1 σ) :
    inv1 (openStep c σ) := by
  unfold openStep
  split
  · exact h
  · rename_i k heq
    split
    · rename_i hcond
      have hc : c < σ.conns.length := by
        exact (List.getElem?_eq_some.mp heq).1
      have hget : σ.conns[c] = k := by
        have := (List.getElem?_eq_some.mp heq).2
        exact this
      unfold inv1 liveCount at h ⊢
      dsimp only
      rw [List.countP_set _ _ _ _ hc]
      have hb := List.boole_getElem_le_countP
        (fun x => isLive x.state) σ.conns c hc
      rw [hget] at hb ⊢
      have hk : isLive k.state = true := by
        rw [hcond.1]
        rfl
      simp only [hk, if_true] at hb ⊢
      have ho : isLive (ReadyState.opened) = true := rfl
      simp only [ho, if_true]
      omega
    · exact h

/-- Delivery of a close event preserves the resource budget. -/
theorem inv1_close (c code : Nat) (σ : MState) (h : inv1 σ) :
    inv1 (closeStep c code σ) := by
  unfold closeStep
  split
  · exact h
  · rename_i k heq
    split
    · exact h
    · rename_i hcond
      push_neg at hcond
      have hterm : isTerminalState k.state = false := by
        have := hcond.1
        cases hx : isTerminalState k.state
        · rfl
        · exact absurd hx this
      have hc : c < σ.conns.length := (List.getElem?_eq_some.mp heq).1
      have hget : σ.conns[c] = k := (List.getElem?_eq_some.mp heq).2
      unfold inv1 liveCount at h ⊢
      dsimp only
      rw [List.countP_set _ _ _ _ hc]
      have hb := List.boole_getElem_le_countP
        (fun x => isLive x.state) σ.conns c hc
      rw [hget] at hb ⊢
      have hk : isLive k.state = true := isLive_of_not_terminal hterm
      have e1 : isLive ({ k with state := ReadyState.closed } : Conn).state
          = false := rfl
      simp only [hk, e1, Bool.false_eq_true, if_true, if_false] at hb ⊢
      by_cases habn : code ≠ 1000 ∧ code ≠ 1001
      · simp only [if_pos habn, List.length_append, List.length_cons,
          List.length_nil]
        omega
      · simp only [if_neg habn]
        omega

/-- A successful or failing connection attempt from an idle state with no
other pending timer respects the resource budget. -/
theorem inv1_connectWS (b : Bool) (s : Nat) (σ : MState)
    (h0 : liveCount σ = 0) (hp : σ.pending = []) :
    inv1 (connectWS b s σ) := by
  unfold inv1 liveCount at *
  cases b
  · unfold connectWS
    simp only [Bool.false_eq_true, if_false]
    rw [List.countP_append, h0, hp]
    have e1 : List.countP (fun k => isLive k.state)
        [(⟨ReadyState.connecting, s, true⟩ : Conn)] = 1 := rfl
    rw [e1]
    simp
  · unfold connectWS
    simp only [if_true]
    rw [h0, hp]
    simp

/-- Firing of a timer preserves the resource budget. -/
theorem inv1_fire (tid : Nat) (b : Bool) (σ : MState) (h : inv1 σ) :
    inv1 (fireStep tid b σ) := by
  unfold fireStep
  cases hp : σ.pending with
  | nil =>
      simp only [List.find?_nil]
      exact h
  | cons u us =>
      have hus : us = [] := by
        unfold inv1 at h
        rw [hp] at h
        simp only [List.length_cons] at h
        have hz : us.length = 0 := by omega
        exact List.length_eq_zero.mp hz
      subst hus
      cases hb : (u.tid == tid)
      · simp only [List.find?_cons, hb]
        simp only [List.find?_nil]
        exact h
      · simp only [List.find?_cons, hb]
        have hlc : liveCount σ = 0 := by
          unfold inv1 at h
          rw [hp] at h
          simp only [List.length_cons, List.length_nil] at h
          omega
        apply inv1_connectWS
        · unfold liveCount at hlc ⊢
          exact hlc
        · show List.filter (fun x => x.tid != tid) [u] = []
          have hbne : (u.tid != tid) = false := by
            simp only [bne]
            rw [hb]
            rfl
          simp [List.filter, hbne]

/-- Every event other than a mount preserves the resource budget. -/
theorem inv1_step_nonmount (σ : MState) (e : Ev) (he : isMount e = false)
    (h : inv1 σ) : inv1 (step σ e) := by
  cases e with
  | mount b => simp [isMount] at he
  | unmount => exact inv1_unmount σ h
  | transportOpen c => exact inv1_open c σ h
  | transportClose c code => exact inv1_close c code σ h
  | transportError c => exact h
  | timerFire tid b => exact inv1_fire tid b σ h

/-- A run containing no mount event preserves the resource budget. -/
theorem inv1_run (l : List Ev) : ∀ σ : MState,
    (∀ e ∈ l, isMount e = false) → inv1 σ → inv1 (run σ l) := by
  induction l with
  | nil => intro σ _ h; exact h
  | cons e es ih =>
      intro σ hall h
      have hr : run σ (e :: es) = run (step σ e) es := rfl
      rw [hr]
      exact ih _ (fun x hx => hall x (List.mem_cons_of_mem _ hx))
        (inv1_step_nonmount σ e (hall e (List.mem_cons_self _ _)) h)

/-- Claim C2 counterexample: along the remount race trace the machine ends
with two connections simultaneously in flight, so the singleton invariant
does not hold across arbitrary re-initialisation sequences. The trace is
the one described at remountRaceTrace: the timer scheduled into the first,
already cleaned up, effect scope by the abnormal close survives the second
cleanup, and its firing opens a connection in parallel with the one opened
by the third mount. -/
theorem C2_cex :
    liveCount (run initState remountRaceTrace) = 2
    ∧ (run initState remountRaceTrace).conns.map Conn.state
        = [ReadyState.closed, ReadyState.connecting, ReadyState.connecting] := by
  refine ⟨by decide, by decide⟩

/-- Claim C2 as amended: a re-initialisation that finds an existing
connection in a non terminal state reuses it, creating no second
connection and pointing wsRef at it; and within a single initialisation,
that is along every event sequence containing at most the initial mount,
at most one physical connection is in flight or established at any time. -/
theorem C2_singleton :
    (∀ (σ : MState) (b : Bool) (c : Nat) (k : Conn),
        σ.mounted = false → σ.singleton = some c → σ.conns[c]? = some k →
        isTerminalState k.state = false →
        (step σ (.mount b)).conns = σ.conns
        ∧ (step σ (.mount b)).wsRef = some c)
    ∧ (∀ (b : Bool) (l : List Ev), (∀ e ∈ l, isMount e = false) →
        liveCount (run initState (Ev.mount b :: l)) ≤ 1) := by
  constructor
  · intro σ b c k hm hs hk hterm
    simp only [step]
    unfold mountStep
    rw [if_neg (by simp [hm])]
    simp only [hs, hk, hterm]
    exact ⟨rfl, rfl⟩
  · intro b l hall
    have hr : run initState (Ev.mount b :: l)
        = run (step initState (.mount b)) l := rfl
    rw [hr]
    have h0 : inv1 (step initState (.mount b)) := by
      cases b <;> (unfold inv1; decide)
    have := inv1_run l (step initState (.mount b)) hall h0
    unfold inv1 at this
    omega

/-- Concrete instance of the C2 theorem: a remount right after cleanup
reuses the connecting singleton without constructing a second WebSocket,
and a mount followed by an abnormal close and the timer firing keeps the
live connection count at one. -/
theorem C2_singleton_witness :
    ((step (run initState [Ev.mount false, Ev.unmount])
        (Ev.mount false)).conns
          = (run initState [Ev.mount false, Ev.unmount]).conns
      ∧ (step (run initState [Ev.mount false, Ev.unmount])
          (Ev.mount false)).wsRef = some 0)
    ∧ liveCount (run initState
        (Ev.mount false :: [Ev.transportClose 0 1006,
          Ev.timerFire 0 false])) ≤ 1 := by
  constructor
  · exact C2_singleton.1 (run initState [Ev.mount false, Ev.unmount])
      false 0 ⟨.connecting, 0, true⟩ (by decide) (by decide) (by decide)
      (by decide)
  · exact C2_singleton.2 false
      [Ev.transportClose 0 1006, Ev.timerFire 0 false] (by decide)

/-- Claim C4: a bootstrap_ok frame carrying both a user and an account sets
both store fields, leaves the overview untouched, and sends get_snapshot
exactly once; a bootstrap_ok frame with an absent user leaves the user
field unchanged, and one with an absent account leaves the account field
unchanged. -/
theorem C4_bootstrap_ok (st : Store) (u : UserRec) (a : AccountRec)
    (ov : Option OverviewRec) (m : Option String)
    (u2 : Option UserRec) (a2 : Option AccountRec) :
    handleMessage (.ok ⟨"bootstrap_ok", some u, some a, ov, m⟩) st
        = ⟨⟨some u, some a, st.overview⟩, [.get_snapshot], [], false⟩
    ∧ (handleMessage (.ok ⟨"bootstrap_ok", none, a2, ov, m⟩) st).store.user
        = st.user
    ∧ (handleMessage (.ok ⟨"bootstrap_ok", u2, none, ov, m⟩) st).store.account
        = st.account := by
  refine ⟨rfl, ?_, ?_⟩
  · cases a2 <;> rfl
  · cases u2 <;> rfl

/-- Claim C5 counterexample: the frame with type snapshot and no overview
field parses, carries a recognized type, and yet is not free of side
effects: handling it replaces a populated overview with the absent value,
because the snapshot branch stores msg.overview unconditionally. -/
theorem C5_cex :
    (handleMessage (.ok ⟨"snapshot", none, none, none, none⟩)
        sampleStore).store.overview = none
    ∧ sampleStore.overview = some sampleOverview :=
  ⟨rfl, rfl⟩

/-- Claim C5 as amended: a frame that fails to parse, and a parsed frame
whose type matches none of the seven recognized strings, are discarded
with no store change, no send, no toast and no escaping exception; a
recognized frame with an invalid structure still cannot crash the client,
but may have effects such as clearing the overview. -/
theorem C5_discard (st : Store) (msg : RawMsg)
    (hu : msg.type ∉ (["bootstrap_ok", "snapshot", "order_filled",
        "order_pending", "user_switched", "account_switched",
        "error"] : List String)) :
    handleMessage .unparseable st = ⟨st, [], [], true⟩
    ∧ handleMessage (.ok msg) st = ⟨st, [], [], false⟩ := by
  refine ⟨rfl, ?_⟩
  simp only [List.mem_cons, List.not_mem_nil, or_false, not_or] at hu
  obtain ⟨h1, h2, h3, h4, h5, h6, h7⟩ := hu
  simp [handleMessage, h1, h2, h3, h4, h5, h6, h7]

/-- Concrete instance of the C5 theorem: an unparseable frame and a frame
with an unknown future type string leave the populated sample store and
the outbound channel untouched. -/
theorem C5_discard_witness :
    handleMessage Frame.unparseable sampleStore
        = ⟨sampleStore, [], [], true⟩
    ∧ handleMessage (Frame.ok mysteryMsg) sampleStore
        = ⟨sampleStore, [], [], false⟩ :=
  C5_discard sampleStore mysteryMsg (by decide)

/-- Claim C7 counterexample: the get_snapshot intent issued through
handleAccountUpdated while the connection is closed is dropped with no
toast at all, so not every disconnected send is reported to the user with
a not connected notification. -/
theorem C7_cex :
    handleAccountUpdated (some ReadyState.closed) = ⟨[], [], false⟩ :=
  rfl

/-- Claim C7 as amended: a switch_user intent issued while the reference
is null or the connection is not open emits the Not connected to server
notification, drops the intent and throws nothing; a get_snapshot intent
issued through handleAccountUpdated in the same situation is dropped
silently, with no notification, and also throws nothing. -/
theorem C7_disconnected_send (ws : Option ReadyState) (uname : String)
    (b : Bool) (h : ws ≠ some ReadyState.opened) :
    switchUser ws uname b
        = ⟨[], [.error "Not connected to server"], false⟩
    ∧ handleAccountUpdated ws = ⟨[], [], false⟩ := by
  cases ws with
  | none => exact ⟨rfl, rfl⟩
  | some rs =>
      have hrs : rs ≠ .opened := by
        intro he
        exact h (by rw [he])
      constructor
      · simp [switchUser, hrs]
      · simp [handleAccountUpdated, hrs]

/-- Concrete instance of the C7 theorem: attempting a user switch and an
account refresh over a closed connection produces only the Not connected
toast for the former and nothing at all for the latter. -/
theorem C7_disconnected_send_witness :
    switchUser (some ReadyState.closed) "alice" false
        = ⟨[], [.error "Not connected to server"], false⟩
    ∧ handleAccountUpdated (some ReadyState.closed) = ⟨[], [], false⟩ :=
  C7_disconnected_send (some ReadyState.closed) "alice" false (by decide)

/-- Claim C8: a user_switched frame with a present user replaces the user
field and leaves account and overview unchanged, and an account_switched
frame with a present account replaces the account field and leaves user
and overview unchanged; each also emits its success toast and sends
nothing. -/
theorem C8_switch (st : Store) (u : UserRec) (a : AccountRec)
    (ua : Option UserRec) (aa : Option AccountRec)
    (ov : Option OverviewRec) (m : Option String) :
    handleMessage (.ok ⟨"user_switched", some u, aa, ov, m⟩) st
        = ⟨⟨some u, st.account, st.overview⟩, [],
           [.success ("Switched to " ++ u.username)], false⟩
    ∧ handleMessage (.ok ⟨"account_switched", ua, some a, ov, m⟩) st
        = ⟨⟨st.user, some a, st.overview⟩, [],
           [.success ("Switched to " ++ a.name)], false⟩ :=
  ⟨rfl, rfl⟩

/-- Claim C9: a user_switched frame without a user and an account_switched
frame without an account throw inside the handler while building the toast
text, before any store write; the catch block contains the error, so the
store, the outbound channel, the toasts and the whole machine state are
unchanged and nothing escapes. -/
theorem C9_absent_payload (σ : MState) (st : Store)
    (aa : Option AccountRec) (ua : Option UserRec)
    (ov : Option OverviewRec) (m : Option String) :
    appHandleMessage σ (.ok ⟨"user_switched", none, aa, ov, m⟩) st
        = (σ, ⟨st, [], [], true⟩)
    ∧ appHandleMessage σ (.ok ⟨"account_switched", ua, none, ov, m⟩) st
        = (σ, ⟨st, [], [], true⟩) :=
  ⟨rfl, rfl⟩

/-- One click keeps the page cursor inside the valid range. -/
theorem clickStep_bounds (tp : Nat) (loading : Bool) (p : Nat) (c : PClick)
    (h1 : 1 ≤ p) (h2 : p ≤ max 1 tp) :
    1 ≤ clickStep tp loading p c ∧ clickStep tp loading p c ≤ max 1 tp := by
  unfold clickStep
  split
  · exact ⟨h1, h2⟩
  · rename_i hdis
    cases c <;>
      simp only [clickDisabled, clickTarget, Bool.or_eq_true, beq_iff_eq,
        decide_eq_true_eq, not_or] at hdis ⊢ <;>
      omega

/-- Claim C10: on page one the first and previous buttons are disabled, at
or past the last page the next and last buttons are disabled, and along
every sequence of clicks the page cursor stays at least one and never
moves past the total page count. -/
theorem C10_pagination :
    (∀ (tp : Nat) (loading : Bool),
        clickDisabled .first 1 tp loading = true
        ∧ clickDisabled .prevPage 1 tp loading = true)
    ∧ (∀ (p tp : Nat) (loading : Bool), tp ≤ p →
        clickDisabled .nextPage p tp loading = true
        ∧ clickDisabled .lastPage p tp loading = true)
    ∧ (∀ (tp : Nat) (loading : Bool) (p : Nat) (cs : List PClick),
        1 ≤ p → p ≤ max 1 tp →
        1 ≤ runClicks tp loading p cs
        ∧ runClicks tp loading p cs ≤ max 1 tp) := by
  refine ⟨?_, ?_, ?_⟩
  · intro tp loading
    constructor <;> simp [clickDisabled]
  · intro p tp loading h
    constructor <;> simp [clickDisabled, h]
  · intro tp loading p cs
    induction cs generalizing p with
    | nil => intro h1 h2; exact ⟨h1, h2⟩
    | cons c cs ih =>
        intro h1 h2
        have hstep := clickStep_bounds tp loading p c h1 h2
        have hr : runClicks tp loading p (c :: cs)
            = runClicks tp loading (clickStep tp loading p c) cs := rfl
        rw [hr]
        exact ih (clickStep tp loading p c) hstep.1 hstep.2

/-- Concrete instance of the C10 theorem: with five total pages, the
first page disables the backward buttons, the last page disables the
forward buttons, and a sample click sequence stays within pages one to
five. -/
theorem C10_pagination_witness :
    (clickDisabled .first 1 5 false = true
      ∧ clickDisabled .prevPage 1 5 false = true)
    ∧ (clickDisabled .nextPage 5 5 false = true
      ∧ clickDisabled .lastPage 5 5 false = true)
    ∧ (1 ≤ runClicks 5 false 1 [.nextPage, .lastPage, .prevPage, .first]
      ∧ runClicks 5 false 1 [.nextPage, .lastPage, .prevPage, .first]
          ≤ max 1 5) := by
  refine ⟨C10_pagination.1 5 false, C10_pagination.2.1 5 5 false (by decide),
    C10_pagination.2.2 5 false 1 [.nextPage, .lastPage, .prevPage, .first]
      (by decide) (by decide)⟩

end TradeDash
